import Mathlib

/-!
Verification of the knowledge-base CRUD service (Django/DRF application).

We give a shallow embedding of the data model (`api/models.py`), the
serializers (`api/serializers.py`), the filter set (`api/filters.py`), the
view set (`api/views.py`) and the pagination/filtering configuration
(`knowledge_base/settings.py`), and prove properties of the embedded
operations.

Conventions of the embedding:
* timestamps are natural numbers (`Nat`); `deleted_at` is `Option Nat`
  (`none` is SQL NULL);
* JSON values are the inductive `JsonVal`; the `quiz` column stores one;
* a database is a list of rows in insertion order; primary-key lookup
  (`objects.get(pk=...)`) is first-match search;
* HTTP responses are modelled as a status code plus an optional body.
-/

set_option autoImplicit false

namespace KB

/-- A JSON value, as stored in the `quiz` JSONField and sent in request
bodies. -/
inductive JsonVal where
  | null
  | bool (b : Bool)
  | num (n : Int)
  | str (s : String)
  | arr (elems : List JsonVal)
  | obj (fields : List (String × JsonVal))
  deriving Repr, BEq

/-- Python `isinstance(value, list)` on a decoded JSON value. -/
def JsonVal.isList : JsonVal → Bool
  | .arr _ => true
  | _ => false

/-- A row of the `Knowledge` table (`api/models.py`, class `Knowledge`):
`user_id` (CharField), `text` (TextField), `quiz` (JSONField, default
`list`), `created_at` (auto_now_add), `updated_at` (auto_now), `deleted_at`
(nullable DateTimeField). -/
structure Knowledge where
  id : Nat
  user_id : String
  text : String
  quiz : JsonVal
  created_at : Nat
  updated_at : Nat
  deleted_at : Option Nat
  deriving Repr, BEq

/-- A row of the `KnowledgeImage` table (`api/models.py`): foreign key to
`Knowledge` with `on_delete=CASCADE`, an image file reference, and
`created_at`. -/
structure KnowledgeImage where
  id : Nat
  knowledge_id : Nat
  image : String
  created_at : Nat
  deriving Repr, BEq, DecidableEq

/-- The non-pk columns of `Knowledge`, used for Django's
`save(update_fields=...)`. -/
inductive Field where
  | user_id
  | text
  | quiz
  | created_at
  | updated_at
  | deleted_at
  deriving Repr, BEq, DecidableEq

/-- Django `Model.save` column write: copy one column from the in-memory
instance `inst` onto the stored row.  `updated_at` has `auto_now=True`, so
whenever it is among the saved columns Django's `pre_save` writes the
current time instead of the instance value. -/
def writeField (now : Nat) (inst : Knowledge) (row : Knowledge) : Field → Knowledge
  | .user_id => { row with user_id := inst.user_id }
  | .text => { row with text := inst.text }
  | .quiz => { row with quiz := inst.quiz }
  | .created_at => { row with created_at := inst.created_at }
  | .updated_at => { row with updated_at := now }
  | .deleted_at => { row with deleted_at := inst.deleted_at }

/-- Django `instance.save(update_fields=fields)`: only the listed columns
are written to the stored row. -/
def saveUpdateFields (now : Nat) (inst row : Knowledge) (fields : List Field) : Knowledge :=
  fields.foldl (writeField now inst) row

/-- Django `instance.save()` with no `update_fields`: every non-pk column
is written (`auto_now` stamping `updated_at` with the current time). -/
def saveAllFields (now : Nat) (inst row : Knowledge) : Knowledge :=
  saveUpdateFields now inst row
    [.user_id, .text, .quiz, .created_at, .updated_at, .deleted_at]

/-- Method `Knowledge.soft_delete` (`api/models.py` lines 16-18): set
`deleted_at = timezone.now()` and `save(update_fields=['deleted_at'])`. -/
def Knowledge.soft_delete (now : Nat) (row : Knowledge) : Knowledge :=
  saveUpdateFields now { row with deleted_at := some now } row [.deleted_at]

/-- Method `Knowledge.restore` (`api/models.py` lines 20-22): set
`deleted_at = None` and `save(update_fields=['deleted_at'])`. -/
def Knowledge.restore (now : Nat) (row : Knowledge) : Knowledge :=
  saveUpdateFields now { row with deleted_at := none } row [.deleted_at]

/-- Property `Knowledge.is_deleted` (`api/models.py` lines 24-26). -/
def Knowledge.is_deleted (row : Knowledge) : Bool :=
  row.deleted_at.isSome

/-- The `Knowledge` table: rows in insertion order. -/
abbrev Store := List Knowledge

/-- Lookup `Knowledge.objects.get(pk=pk)`: first row with the given primary
key. -/
def getByPk (s : Store) (pk : Nat) : Option Knowledge :=
  s.find? (fun r => r.id == pk)

/-- The view's `get_queryset` (`api/views.py` lines 29-31):
`Knowledge.objects.filter(deleted_at__isnull=True)`. -/
def activeRows (s : Store) : Store :=
  s.filter (fun r => r.deleted_at.isNone)

/-- Resolution `self.get_object()` on the view: `get_object_or_404` against the
active-only queryset, by primary key. -/
def getActive (s : Store) (pk : Nat) : Option Knowledge :=
  s.find? (fun r => r.deleted_at.isNone && r.id == pk)

/-- Replace the row with primary key `pk` by `row'` (the UPDATE issued by a
save on a fetched instance). -/
def replaceByPk (s : Store) (pk : Nat) (row' : Knowledge) : Store :=
  s.map (fun r => if r.id == pk then row' else r)

/-! ### The filter set (`api/filters.py`) and query-layer configuration -/

/-- Boolean test: does `small` occur at the start of `big`? (helper for the
`icontains` lookup). -/
def startsChars : List Char → List Char → Bool
  | [], _ => true
  | _ :: _, [] => false
  | a :: as, b :: bs => a == b && startsChars as bs

/-- Boolean test: does `small` occur contiguously anywhere in `big`? -/
def subChars (small : List Char) : List Char → Bool
  | [] => startsChars small []
  | b :: bs => startsChars small (b :: bs) || subChars small bs

/-- Lower-case a character sequence (ASCII case folding, as
`str.lower()` does on the ASCII range). -/
def lowerChars (l : List Char) : List Char :=
  l.map Char.toLower

/-- Django's `icontains` lookup: case-insensitive substring match. -/
def icontains (hay needle : String) : Bool :=
  subChars (lowerChars needle.data) (lowerChars hay.data)

/-- The declared query parameters of `KnowledgeFilter` (`api/filters.py`),
one optional value per declared filter, plus the `search`, `ordering`,
`page` and `page_size` query parameters that the request may carry.  A
`none` means the parameter is absent from the request. -/
structure ListParams where
  user_id : Option String := none
  text__icontains : Option String := none
  created_at__gte : Option Nat := none
  created_at__lte : Option Nat := none
  updated_at__gte : Option Nat := none
  updated_at__lte : Option Nat := none
  search : Option String := none
  ordering : Option (List String) := none
  page : Nat := 1
  page_size : Option Nat := none
  deriving Repr

/-- Backend `DjangoFilterBackend` applied with `KnowledgeFilter`: conjunction of the
declared lookups.  Query parameters not declared on the filter set (such as
`search`, for which no backend is configured in
`REST_FRAMEWORK['DEFAULT_FILTER_BACKENDS']`) are ignored. -/
def matchesFilter (p : ListParams) (r : Knowledge) : Bool :=
  (match p.user_id with | none => true | some u => r.user_id == u) &&
  (match p.text__icontains with | none => true | some t => icontains r.text t) &&
  (match p.created_at__gte with | none => true | some d => decide (d ≤ r.created_at)) &&
  (match p.created_at__lte with | none => true | some d => decide (r.created_at ≤ d)) &&
  (match p.updated_at__gte with | none => true | some d => decide (d ≤ r.updated_at)) &&
  (match p.updated_at__lte with | none => true | some d => decide (r.updated_at ≤ d))

/-- A sortable column, from `ordering_fields = ['created_at', 'updated_at',
'user_id']` on the view. -/
inductive OrderKey where
  | created_at
  | updated_at
  | user_id
  deriving Repr, BEq

/-- One term of an `ordering` query parameter: a column and a direction. -/
structure OrderTerm where
  key : OrderKey
  desc : Bool
  deriving Repr, BEq

/-- Parse one `ordering` term (`OrderingFilter`): a leading `-` means
descending; terms naming a column outside `ordering_fields` are invalid and
dropped. -/
def parseOrderTerm (s : String) : Option OrderTerm :=
  let desc := s.startsWith "-"
  let name := if desc then s.drop 1 else s
  if name == "created_at" then some ⟨.created_at, desc⟩
  else if name == "updated_at" then some ⟨.updated_at, desc⟩
  else if name == "user_id" then some ⟨.user_id, desc⟩
  else none

/-- Method `OrderingFilter.get_ordering`: the valid terms of the `ordering`
parameter; when the parameter is absent or yields no valid term, the view's
default `ordering = ['-created_at']`. -/
def effectiveOrdering (p : Option (List String)) : List OrderTerm :=
  match p with
  | none => [⟨.created_at, true⟩]
  | some ss =>
    match ss.filterMap parseOrderTerm with
    | [] => [⟨.created_at, true⟩]
    | ts => ts

/-- Compare two rows on one column. -/
def cmpKey (k : OrderKey) (a b : Knowledge) : Ordering :=
  match k with
  | .created_at => compare a.created_at b.created_at
  | .updated_at => compare a.updated_at b.updated_at
  | .user_id => compare a.user_id b.user_id

/-- Lexicographic comparison along the ordering terms (SQL
`ORDER BY t1, t2, ...`). -/
def cmpTerms (ts : List OrderTerm) (a b : Knowledge) : Ordering :=
  match ts with
  | [] => .eq
  | t :: rest =>
    let c := cmpKey t.key a b
    let c := if t.desc then c.swap else c
    match c with
    | .eq => cmpTerms rest a b
    | c => c

/-- Whether `a` may come before `b` under the ordering terms. -/
def leTerms (ts : List OrderTerm) (a b : Knowledge) : Bool :=
  cmpTerms ts a b != .gt

/-- Insert into a sorted list (kernel of the sort used to model SQL
`ORDER BY`). -/
def insSorted (le : Knowledge → Knowledge → Bool) (a : Knowledge) : Store → Store
  | [] => [a]
  | b :: bs => if le a b then a :: b :: bs else b :: insSorted le a bs

/-- Sort the queryset by the comparison `le` (insertion sort). -/
def sortByLe (le : Knowledge → Knowledge → Bool) : Store → Store
  | [] => []
  | a :: as => insSorted le a (sortByLe le as)

/-! ### Pagination (`settings.py` `REST_FRAMEWORK` block, DRF
`PageNumberPagination`) -/

/-- Method `PageNumberPagination.get_page_size`: when the class attribute
`page_size_query_param` is set, a positive requested size is honoured up to
`max_page_size`; otherwise the class `page_size` is used.  DRF only reads
`page_size_query_param` and `max_page_size` from the pagination class;
this deployment uses the stock class, whose values are `None`, because the
`PAGE_SIZE_QUERY_PARAM` and `MAX_PAGE_SIZE` keys in the `REST_FRAMEWORK`
settings dict are not DRF settings and are never read. -/
def getPageSize (pageSizeQueryParam : Option String) (maxPageSize : Option Nat)
    (defaultSize : Nat) (requested : Option Nat) : Nat :=
  match pageSizeQueryParam with
  | none => defaultSize
  | some _ =>
    match requested with
    | none => defaultSize
    | some n =>
      if n == 0 then defaultSize
      else
        match maxPageSize with
        | none => n
        | some m => min n m

/-- The page size the deployed configuration produces for a request:
`PAGE_SIZE = 20`, stock `PageNumberPagination` (so `page_size_query_param =
None`, `max_page_size = None`). -/
def deployedPageSize (requested : Option Nat) : Nat :=
  getPageSize none none 20 requested

/-- Modelled from the spec: the page size the spec describes — "default 20,
configurable per request up to a cap of 100", i.e. `page_size_query_param =
'page_size'` and `max_page_size = 100`. -/
def specPageSize (requested : Option Nat) : Nat :=
  getPageSize (some "page_size") (some 100) 20 requested

/-- A paginated list response body: `{count, next, previous, results}`.
`next`/`previous` are modelled as the page numbers the links point to. -/
structure ListResponse where
  count : Nat
  next : Option Nat
  previous : Option Nat
  results : Store
  deriving Repr

/-- Django `Paginator.num_pages`: `ceil(count / per_page)`, but at least `1`
(an empty first page is allowed). -/
def numPages (count size : Nat) : Nat :=
  if count == 0 then 1 else (count + size - 1) / size

/-- DRF `paginate_queryset` + `get_paginated_response`: slice out the
requested page, or fail with 404 (`none`) when the page number is invalid. -/
def paginate (l : Store) (page size : Nat) : Option ListResponse :=
  let np := numPages l.length size
  if page = 0 ∨ np < page then none
  else
    some { count := l.length
           next := if page < np then some (page + 1) else none
           previous := if 1 < page then some (page - 1) else none
           results := (l.drop ((page - 1) * size)).take size }

/-- Endpoint `GET /knowledge/` (`KnowledgeViewSet.list`): active rows, filtered by
`KnowledgeFilter`, ordered by `OrderingFilter`, then paginated.  `none` is
the 404 response for an invalid page number. -/
def listKnowledge (s : Store) (p : ListParams) : Option ListResponse :=
  let qs := activeRows s
  let qs := qs.filter (matchesFilter p)
  let qs := sortByLe (leTerms (effectiveOrdering p.ordering)) qs
  paginate qs p.page (deployedPageSize p.page_size)

/-! ### Serializers (`api/serializers.py`) and the mutating endpoints
(`api/views.py`) -/

/-- Validator `validate_quiz` of `KnowledgeCreateSerializer` and
`KnowledgeUpdateSerializer` (`api/serializers.py`): reject any value that is
not a list. -/
def validate_quiz (value : JsonVal) : Except String JsonVal :=
  if value.isList then .ok value
  else .error "Quiz must be a list."

/-- Body of `POST /knowledge/`: the writable fields of
`KnowledgeCreateSerializer` (`['user_id', 'text', 'quiz']`); a `none` field
is absent from the request. -/
structure CreateBody where
  user_id : Option String := none
  text : Option String := none
  quiz : Option JsonVal := none
  deriving Repr

/-- Body of `PATCH /knowledge/{id}/`: the writable fields of
`KnowledgeUpdateSerializer` (`['text', 'quiz']`). -/
structure UpdateBody where
  text : Option String := none
  quiz : Option JsonVal := none
  deriving Repr

/-- Validation `KnowledgeCreateSerializer.is_valid`: `user_id` and `text` are required
model-backed fields; `quiz` has a model default (`default=list`,
`blank=True`) so it is optional, and when present it must pass
`validate_quiz`.  Returns the validated `(user_id, text, quiz)`. -/
def validateCreate (b : CreateBody) : Except String (String × String × JsonVal) :=
  match b.user_id with
  | none => .error "user_id: This field is required."
  | some u =>
    match b.text with
    | none => .error "text: This field is required."
    | some t =>
      match b.quiz with
      | none => .ok (u, t, .arr [])
      | some q =>
        match validate_quiz q with
        | .error e => .error e
        | .ok q => .ok (u, t, q)

/-- Endpoint `POST /knowledge/` (`CreateModelMixin.create` with
`KnowledgeCreateSerializer`): on validation failure, 400 and the store is
untouched; otherwise a new active row is inserted (`auto_now_add` and
`auto_now` stamping both timestamps with the current time) and 201 is
returned with the row. -/
def createView (now nextId : Nat) (s : Store) (b : CreateBody) :
    Store × Nat × Option Knowledge :=
  match validateCreate b with
  | .error _ => (s, 400, none)
  | .ok (u, t, q) =>
    let row : Knowledge :=
      { id := nextId, user_id := u, text := t, quiz := q
        created_at := now, updated_at := now, deleted_at := none }
    (s ++ [row], 201, some row)

/-- Validation `KnowledgeUpdateSerializer.is_valid` on a partial update: each provided
field is validated (`quiz` through `validate_quiz`); absent fields are left
alone. -/
def validateUpdate (b : UpdateBody) : Except String UpdateBody :=
  match b.quiz with
  | none => .ok b
  | some q =>
    match validate_quiz q with
    | .error e => .error e
    | .ok _ => .ok b

/-- Endpoint `PATCH /knowledge/{id}/` (`UpdateModelMixin.partial_update`):
`get_object` resolves the pk against the active-only queryset (404
otherwise); after validation the serializer sets the provided fields on the
instance and calls `instance.save()` — a full save, so `auto_now` also
rewrites `updated_at`. -/
def updateView (now : Nat) (s : Store) (pk : Nat) (b : UpdateBody) :
    Store × Nat × Option Knowledge :=
  match getActive s pk with
  | none => (s, 404, none)
  | some row =>
    match validateUpdate b with
    | .error _ => (s, 400, none)
    | .ok b =>
      let inst := { row with text := b.text.getD row.text, quiz := b.quiz.getD row.quiz }
      let row' := saveAllFields now inst row
      (replaceByPk s pk row', 200, some row')

/-- Endpoint `DELETE /knowledge/{id}/` (`DestroyModelMixin.destroy` with
`perform_destroy` overridden to `instance.soft_delete()`): 404 when the pk
does not resolve against the active-only queryset; otherwise the row is
soft-deleted in place and 204 No Content is returned. -/
def destroyView (now : Nat) (s : Store) (pk : Nat) : Store × Nat :=
  match getActive s pk with
  | none => (s, 404)
  | some row => (replaceByPk s pk (row.soft_delete now), 204)

/-- Endpoint `GET /knowledge/{id}/` (`RetrieveModelMixin.retrieve`): the row when the
pk resolves against the active-only queryset, else 404. -/
def retrieveView (s : Store) (pk : Nat) : Nat × Option Knowledge :=
  match getActive s pk with
  | none => (404, none)
  | some row => (200, some row)

/-- Endpoint `POST /knowledge/{id}/restore/` (`KnowledgeViewSet.restore`,
`api/views.py` lines 41-58): the pk is looked up in the unfiltered table
(`Knowledge.objects.get(pk=pk)`); a missing row gives 404, a row with
`deleted_at` already null gives 400 and no write, otherwise the row is
restored and returned with 200. -/
def restoreView (now : Nat) (s : Store) (pk : Nat) :
    Store × Nat × Option Knowledge :=
  match getByPk s pk with
  | none => (s, 404, none)
  | some row =>
    if row.deleted_at.isNone then (s, 400, none)
    else
      let row' := row.restore now
      (replaceByPk s pk row', 200, some row')

/-- Endpoint `POST /knowledge/{id}/upload-image/` (`KnowledgeViewSet.upload_image`):
`get_object` against the active-only queryset (404), then 400 when the
request carries no `image` file, else a new `KnowledgeImage` row is created
and 201 returned. -/
def uploadImageView (now nextImgId : Nat) (s : Store) (imgs : List KnowledgeImage)
    (pk : Nat) (file : Option String) : List KnowledgeImage × Nat :=
  match getActive s pk with
  | none => (imgs, 404)
  | some _ =>
    match file with
    | none => (imgs, 400)
    | some f =>
      (imgs ++ [{ id := nextImgId, knowledge_id := pk, image := f, created_at := now }], 201)

/-- Endpoint `DELETE /knowledge/{id}/images/{image_id}/`
(`KnowledgeViewSet.delete_image`): `get_object` against the active-only
queryset (404), then `knowledge.images.get(id=image_id)` — an image that
does not belong to that knowledge gives 404, else it is deleted and 204
returned. -/
def deleteImageView (s : Store) (imgs : List KnowledgeImage) (pk image_id : Nat) :
    List KnowledgeImage × Nat :=
  match getActive s pk with
  | none => (imgs, 404)
  | some _ =>
    if imgs.any (fun i => i.knowledge_id == pk && i.id == image_id) then
      (imgs.filter (fun i => !(i.knowledge_id == pk && i.id == image_id)), 204)
    else (imgs, 404)

/-- Hard deletion of a `Knowledge` row (`Model.delete()`, not exposed over
HTTP): Django's collector cascades over `KnowledgeImage.knowledge`
(`on_delete=models.CASCADE`, `api/models.py` line 30), deleting every image
row whose foreign key points at the deleted row. -/
def hardDeleteKnowledge (s : Store) (imgs : List KnowledgeImage) (pk : Nat) :
    Store × List KnowledgeImage :=
  (s.filter (fun r => r.id != pk), imgs.filter (fun i => i.knowledge_id != pk))

/-! ### Helper lemmas -/

theorem soft_delete_eq (now : Nat) (row : Knowledge) :
    row.soft_delete now = { row with deleted_at := some now } := rfl

theorem restore_eq (now : Nat) (row : Knowledge) :
    row.restore now = { row with deleted_at := none } := rfl

theorem saveAllFields_eq (now : Nat) (inst row : Knowledge) :
    saveAllFields now inst row = { inst with id := row.id, updated_at := now } := rfl

theorem mem_insSorted {le : Knowledge → Knowledge → Bool} {a x : Knowledge}
    {l : Store} : x ∈ insSorted le a l ↔ x = a ∨ x ∈ l := by
  induction l with
  | nil => simp [insSorted]
  | cons b bs ih =>
    by_cases h : le a b = true
    · simp [insSorted, h]
    · simp only [insSorted]
      rw [if_neg h]
      simp only [List.mem_cons, ih]
      tauto

theorem mem_sortByLe {le : Knowledge → Knowledge → Bool} {x : Knowledge}
    {l : Store} : x ∈ sortByLe le l ↔ x ∈ l := by
  induction l with
  | nil => simp [sortByLe]
  | cons a as ih => simp [sortByLe, mem_insSorted, ih]

theorem length_insSorted (le : Knowledge → Knowledge → Bool) (a : Knowledge)
    (l : Store) : (insSorted le a l).length = l.length + 1 := by
  induction l with
  | nil => rfl
  | cons b bs ih =>
    by_cases h : le a b = true
    · simp [insSorted, h]
    · simp [insSorted, h, ih]

theorem length_sortByLe (le : Knowledge → Knowledge → Bool) (l : Store) :
    (sortByLe le l).length = l.length := by
  induction l with
  | nil => rfl
  | cons a as ih => simp [sortByLe, length_insSorted, ih]

theorem mem_of_mem_paginate {l : Store} {page size : Nat} {r : ListResponse}
    {k : Knowledge} (h : paginate l page size = some r) (hk : k ∈ r.results) :
    k ∈ l := by
  by_cases hc : page = 0 ∨ numPages l.length size < page
  · simp [paginate, hc] at h
  · simp only [paginate, hc, if_false, Option.some.injEq] at h
    subst h
    exact List.mem_of_mem_drop (List.mem_of_mem_take hk)

theorem getActive_eq_none {s : Store} {pk : Nat}
    (h : ∀ r ∈ s, r.id = pk → r.deleted_at ≠ none) : getActive s pk = none := by
  refine List.find?_eq_none.mpr fun r hr hp => ?_
  simp only [Bool.and_eq_true, Option.isNone_iff_eq_none, beq_iff_eq] at hp
  exact h r hr hp.2 hp.1

theorem mem_replaceByPk {s : Store} {pk : Nat} {row row' : Knowledge}
    (hfind : getByPk s pk = some row) : row' ∈ replaceByPk s pk row' := by
  have hfind' : s.find? (fun r => r.id == pk) = some row := hfind
  have hmem : row ∈ s := List.mem_of_find?_eq_some hfind'
  have hid0 := List.find?_some hfind'
  have hid : (row.id == pk) = true := by simpa using hid0
  have := List.mem_map_of_mem (fun r => if r.id == pk then row' else r) hmem
  simpa [replaceByPk, hid] using this

theorem length_replaceByPk (s : Store) (pk : Nat) (row' : Knowledge) :
    (replaceByPk s pk row').length = s.length := by
  simp [replaceByPk]

/-! ### Sample rows used by the witnesses -/

/-- A concrete active row. -/
def kActive : Knowledge :=
  { id := 1, user_id := "u1", text := "hello", quiz := .arr []
    created_at := 3, updated_at := 3, deleted_at := none }

/-- A concrete soft-deleted row. -/
def kDeleted : Knowledge :=
  { id := 2, user_id := "u2", text := "bye", quiz := .arr []
    created_at := 5, updated_at := 5, deleted_at := some 9 }

/-- A concrete image owned by row 1. -/
def img1 : KnowledgeImage :=
  { id := 1, knowledge_id := 1, image := "a.png", created_at := 0 }

/-- A concrete image owned by row 2. -/
def img2 : KnowledgeImage :=
  { id := 2, knowledge_id := 2, image := "b.png", created_at := 0 }

/-! ### The claims -/

/-- C9: `soft_delete` and `restore` write only the `deleted_at` column —
`user_id`, `text`, `quiz`, `created_at` and, despite `auto_now`,
`updated_at` are unchanged by both, because the save is restricted to
`update_fields=['deleted_at']`; by contrast an unrestricted save stamps
`updated_at` with the current time. -/
theorem save_update_fields_frame (now : Nat) (row : Knowledge) :
    (row.soft_delete now).user_id = row.user_id ∧
    (row.soft_delete now).text = row.text ∧
    (row.soft_delete now).quiz = row.quiz ∧
    (row.soft_delete now).created_at = row.created_at ∧
    (row.soft_delete now).updated_at = row.updated_at ∧
    (row.soft_delete now).deleted_at = some now ∧
    (row.restore now).user_id = row.user_id ∧
    (row.restore now).text = row.text ∧
    (row.restore now).quiz = row.quiz ∧
    (row.restore now).created_at = row.created_at ∧
    (row.restore now).updated_at = row.updated_at ∧
    (row.restore now).deleted_at = none ∧
    (saveAllFields now row row).updated_at = now :=
  ⟨rfl, rfl, rfl, rfl, rfl, rfl, rfl, rfl, rfl, rfl, rfl, rfl, rfl⟩

/-- C3: hard-deleting a `Knowledge` row cascades over the
`on_delete=CASCADE` foreign key: no image owned by the deleted row remains
in the image table. -/
theorem cascade_delete_images (s : Store) (imgs : List KnowledgeImage)
    (pk : Nat) (i : KnowledgeImage)
    (hi : i ∈ (hardDeleteKnowledge s imgs pk).2) : i.knowledge_id ≠ pk := by
  have h := (List.mem_filter.mp hi).2
  simpa using h

theorem cascade_delete_images_witness : img2.knowledge_id ≠ 1 :=
  cascade_delete_images [kActive, kDeleted] [img1, img2] 1 img2 (by exact List.Mem.head _)

/-- C2: `POST /knowledge/{id}/restore/` returns 404 for an unknown id
leaving the table unchanged; returns 400 leaving the table unchanged when
the row's `deleted_at` is already null; and otherwise clears `deleted_at`
and returns the row with 200. -/
theorem restore_endpoint (now pk : Nat) (s : Store) :
    (getByPk s pk = none → restoreView now s pk = (s, 404, none)) ∧
    (∀ row, getByPk s pk = some row → row.deleted_at = none →
      restoreView now s pk = (s, 400, none)) ∧
    (∀ row, getByPk s pk = some row → row.deleted_at ≠ none →
      restoreView now s pk =
        (replaceByPk s pk { row with deleted_at := none }, 200,
         some { row with deleted_at := none })) := by
  refine ⟨fun h => ?_, fun row h hnone => ?_, fun row h hsome => ?_⟩
  · simp [restoreView, h]
  · simp [restoreView, h, hnone]
  · have hfalse : row.deleted_at.isNone = false := by
      cases hd : row.deleted_at with
      | none => exact absurd hd hsome
      | some v => rfl
    simp [restoreView, h, hfalse, restore_eq]

theorem restore_endpoint_witness :
    restoreView 7 [kActive, kDeleted] 2 =
      ([kActive, { kDeleted with deleted_at := none }], 200,
       some { kDeleted with deleted_at := none }) :=
  (restore_endpoint 7 2 [kActive, kDeleted]).2.2 kDeleted rfl (by decide)

/-- C7: `DELETE /knowledge/{id}/` on an active row soft-deletes it in place
(the row stays in the table with `deleted_at` set to the current time) and
returns 204 with no body; applying `soft_delete` again is not rejected, it
just rewrites the timestamp. -/
theorem soft_delete_endpoint (now now2 pk : Nat) (s : Store) (row x : Knowledge) :
    (getActive s pk = some row →
      destroyView now s pk =
        (replaceByPk s pk { row with deleted_at := some now }, 204)) ∧
    (row.soft_delete now).soft_delete now2 = { row with deleted_at := some now2 } ∧
    (replaceByPk s pk x).length = s.length := by
  refine ⟨fun h => ?_, rfl, length_replaceByPk s pk x⟩
  simp [destroyView, h, soft_delete_eq]

theorem soft_delete_endpoint_witness :
    destroyView 11 [kActive, kDeleted] 1 =
      ([{ kActive with deleted_at := some 11 }, kDeleted], 204) :=
  (soft_delete_endpoint 11 0 1 [kActive, kDeleted] kActive kActive).1 rfl

theorem paginate_page_one {l : Store} (h20 : l.length ≤ 20) :
    ∃ r, paginate l 1 20 = some r ∧ r.results = l := by
  have hnp : 1 ≤ numPages l.length 20 := by
    by_cases h0 : l.length = 0
    · simp [numPages, h0]
    · have h1 : 1 ≤ l.length := Nat.one_le_iff_ne_zero.mpr h0
      have hb : (l.length == 0) = false := by simp [h0]
      simp only [numPages, hb, Bool.false_eq_true, if_false]
      rw [Nat.one_le_div_iff (by norm_num)]
      omega
  have hcond : ¬(1 = 0 ∨ numPages l.length 20 < 1) := by
    push_neg
    exact ⟨by omega, by omega⟩
  refine ⟨{ count := l.length
            next := if 1 < numPages l.length 20 then some 2 else none
            previous := if 1 < 1 then some 0 else none
            results := (l.drop ((1 - 1) * 20)).take 20 }, ?_, ?_⟩
  · simp only [paginate]
    rw [if_neg hcond]
  · show (l.drop ((1 - 1) * 20)).take 20 = l
    rw [show (1 - 1) * 20 = 0 from rfl, List.drop_zero]
    exact List.take_of_length_le h20

/-- C1: list results only ever contain rows with `deleted_at` null —
soft-deleted rows are excluded for every combination of filters, ordering
and pagination — and a successfully restored row reappears in the default
list (stated for a table that fits on one page). -/
theorem list_only_active :
    (∀ (s : Store) (p : ListParams) (r : ListResponse),
      listKnowledge s p = some r → ∀ k ∈ r.results, k.deleted_at = none) ∧
    (∀ (now pk st : Nat) (s s' : Store) (bd : Knowledge),
      restoreView now s pk = (s', st, some bd) → s'.length ≤ 20 →
      ∃ r, listKnowledge s' {} = some r ∧ bd ∈ r.results) := by
  constructor
  · intro s p r h k hk
    simp only [listKnowledge] at h
    have hmem := mem_of_mem_paginate h hk
    rw [mem_sortByLe] at hmem
    have h1 := (List.mem_filter.mp hmem).1
    have h2 := (List.mem_filter.mp h1).2
    exact Option.isNone_iff_eq_none.mp h2
  · intro now pk st s s' bd h hlen
    cases hfind : getByPk s pk with
    | none =>
      simp only [restoreView, hfind] at h
      simp at h
    | some row =>
      simp only [restoreView, hfind] at h
      by_cases hn : row.deleted_at.isNone = true
      · rw [if_pos hn] at h
        simp at h
      · rw [if_neg hn] at h
        injection h with h1 h'
        injection h' with h2 h3
        injection h3 with h3
        subst h1
        subst h3
        have hbmem : row.restore now ∈ replaceByPk s pk (row.restore now) :=
          mem_replaceByPk hfind
        have hq1 : row.restore now ∈ activeRows (replaceByPk s pk (row.restore now)) :=
          List.mem_filter.mpr ⟨hbmem, by simp [restore_eq]⟩
        have hq2 : row.restore now ∈
            (activeRows (replaceByPk s pk (row.restore now))).filter (matchesFilter {}) :=
          List.mem_filter.mpr ⟨hq1, rfl⟩
        have hq3 := (@mem_sortByLe (leTerms (effectiveOrdering none)) _ _).mpr hq2
        have hq20 : (sortByLe (leTerms (effectiveOrdering none))
            ((activeRows (replaceByPk s pk (row.restore now))).filter
              (matchesFilter {}))).length ≤ 20 := by
          rw [length_sortByLe]
          exact le_trans (List.length_filter_le _ _)
            (le_trans (List.length_filter_le _ _) hlen)
        obtain ⟨r, hp, hres⟩ := paginate_page_one hq20
        refine ⟨r, hp, ?_⟩
        rw [hres]
        exact hq3

theorem list_only_active_witness :
    ∃ r, listKnowledge [{ kDeleted with deleted_at := none }] {} = some r ∧
      { kDeleted with deleted_at := none } ∈ r.results :=
  list_only_active.2 7 2 200 [kDeleted] [{ kDeleted with deleted_at := none }]
    { kDeleted with deleted_at := none } rfl (by decide)

/-- C5: a create or update whose `quiz` value is present and is not a list
fails with 400 and leaves the table untouched; a list-typed `quiz` passes
`validate_quiz`. -/
theorem quiz_must_be_list (now nextId pk : Nat) (s : Store) (q : JsonVal)
    (uo txo txt : Option String) (row : Knowledge) :
    (q.isList = false →
      createView now nextId s { user_id := uo, text := txo, quiz := some q } =
        (s, 400, none)) ∧
    (q.isList = false → getActive s pk = some row →
      updateView now s pk { text := txt, quiz := some q } = (s, 400, none)) ∧
    (q.isList = true → validate_quiz q = .ok q) := by
  refine ⟨fun h => ?_, fun h hrow => ?_, fun h => ?_⟩
  · cases uo with
    | none => rfl
    | some u =>
      cases txo with
      | none => rfl
      | some t => simp [createView, validateCreate, validate_quiz, h]
  · simp [updateView, hrow, validateUpdate, validate_quiz, h]
  · simp [validate_quiz, h]

theorem quiz_must_be_list_witness :
    createView 4 10 [kActive]
        { user_id := some "u", text := some "t", quiz := some (.str "not a list") } =
      ([kActive], 400, none) ∧
    updateView 4 [kActive] 1 { text := none, quiz := some (.str "not a list") } =
      ([kActive], 400, none) ∧
    validate_quiz (.arr [.str "q1"]) = .ok (.arr [.str "q1"]) :=
  ⟨(quiz_must_be_list 4 10 1 [kActive] (.str "not a list") (some "u") (some "t")
      none kActive).1 rfl,
   (quiz_must_be_list 4 10 1 [kActive] (.str "not a list") (some "u") (some "t")
      none kActive).2.1 rfl rfl,
   (quiz_must_be_list 4 10 1 [kActive] (.arr [.str "q1"]) (some "u") (some "t")
      none kActive).2.2 rfl⟩

/-- C6 counterexample: a PATCH providing only `text` changes `updated_at`
(from 3 to the save time 10), because the serializer's save is a full save
and `updated_at` has `auto_now` — contradicting "every other field of the
record unchanged". -/
theorem update_changes_updated_at :
    (updateView 10 [kActive] 1 { text := some "new", quiz := none }).2.1 = 200 ∧
    ((updateView 10 [kActive] 1 { text := some "new", quiz := none }).1.map
      (fun r => r.updated_at)) = [10] ∧
    kActive.updated_at = 3 :=
  ⟨rfl, rfl, rfl⟩

/-- C6 (amended): PATCH mutates only the provided fields among
`{text, quiz}` and additionally refreshes `updated_at` to the save time
(`auto_now`); `id`, `user_id`, `created_at` and `deleted_at` are unchanged
and rows with other ids are untouched; it fails with 404, leaving the table
unchanged, whenever no row with that id has `deleted_at` null — including
when the row exists but is soft-deleted. -/
theorem update_provided_fields (now pk : Nat) (s : Store) (b : UpdateBody)
    (row : Knowledge) :
    (getActive s pk = some row → validateUpdate b = .ok b →
      updateView now s pk b =
        (replaceByPk s pk
          { row with text := b.text.getD row.text, quiz := b.quiz.getD row.quiz
                     updated_at := now },
         200,
         some { row with text := b.text.getD row.text, quiz := b.quiz.getD row.quiz
                         updated_at := now })) ∧
    ((∀ r ∈ s, r.id = pk → r.deleted_at ≠ none) →
      updateView now s pk b = (s, 404, none)) := by
  refine ⟨fun h hv => ?_, fun h => ?_⟩
  · simp [updateView, h, hv, saveAllFields_eq]
  · simp [updateView, getActive_eq_none h]

theorem update_provided_fields_witness :
    updateView 10 [kActive, kDeleted] 1 { text := some "new", quiz := none } =
      ([{ kActive with text := "new", updated_at := 10 }, kDeleted], 200,
       some { kActive with text := "new", updated_at := 10 }) ∧
    updateView 10 [kDeleted] 2 { text := some "new", quiz := none } =
      ([kDeleted], 404, none) :=
  ⟨(update_provided_fields 10 1 [kActive, kDeleted]
      { text := some "new", quiz := none } kActive).1 rfl rfl,
   (update_provided_fields 10 2 [kDeleted]
      { text := some "new", quiz := none } kDeleted).2
     (by intro r hr h1; rw [List.mem_singleton] at hr; subst hr; decide)⟩

/-- C10: on a pk whose only rows are soft-deleted, every detail operation
that goes through the active-only queryset — retrieve, update, delete,
upload-image, delete-image — answers 404 without side effect, while
`restore`, which looks the pk up in the unfiltered table, resolves it and
answers 200. -/
theorem soft_deleted_detail_404 (now nextImgId image_id pk : Nat) (s : Store)
    (imgs : List KnowledgeImage) (b : UpdateBody) (file : Option String)
    (row : Knowledge)
    (hall : ∀ r ∈ s, r.id = pk → r.deleted_at ≠ none)
    (hfind : getByPk s pk = some row) :
    retrieveView s pk = (404, none) ∧
    updateView now s pk b = (s, 404, none) ∧
    destroyView now s pk = (s, 404) ∧
    uploadImageView now nextImgId s imgs pk file = (imgs, 404) ∧
    deleteImageView s imgs pk image_id = (imgs, 404) ∧
    (restoreView now s pk).2.1 = 200 := by
  have hga := getActive_eq_none hall
  have hfind' : s.find? (fun r => r.id == pk) = some row := hfind
  have hmem : row ∈ s := List.mem_of_find?_eq_some hfind'
  have hid0 := List.find?_some hfind'
  have hid : row.id = pk := by simpa using hid0
  have hdel : row.deleted_at ≠ none := hall row hmem hid
  have hfalse : row.deleted_at.isNone = false := by
    cases hd : row.deleted_at with
    | none => exact absurd hd hdel
    | some v => rfl
  refine ⟨?_, ?_, ?_, ?_, ?_, ?_⟩
  · simp [retrieveView, hga]
  · simp [updateView, hga]
  · simp [destroyView, hga]
  · simp [uploadImageView, hga]
  · simp [deleteImageView, hga]
  · simp [restoreView, hfind, hfalse]

theorem soft_deleted_detail_404_witness :
    retrieveView [kDeleted] 2 = (404, none) ∧
    updateView 6 [kDeleted] 2 {} = ([kDeleted], 404, none) ∧
    destroyView 6 [kDeleted] 2 = ([kDeleted], 404) ∧
    uploadImageView 6 9 [kDeleted] [img2] 2 (some "c.png") = ([img2], 404) ∧
    deleteImageView [kDeleted] [img2] 2 2 = ([img2], 404) ∧
    (restoreView 6 [kDeleted] 2).2.1 = 200 :=
  soft_deleted_detail_404 6 9 2 2 [kDeleted] [img2] {} (some "c.png") kDeleted
    (by intro r hr h1; rw [List.mem_singleton] at hr; subst hr; decide) rfl

/-- An active row matching the unit tests' search scenario ("Python
programming"). -/
def c4row1 : Knowledge :=
  { id := 1, user_id := "user1", text := "Python programming", quiz := .arr []
    created_at := 1, updated_at := 1, deleted_at := none }

/-- An active row matching the unit tests' search scenario ("Django
framework"). -/
def c4row2 : Knowledge :=
  { id := 2, user_id := "user2", text := "Django framework", quiz := .arr []
    created_at := 2, updated_at := 2, deleted_at := none }

/-- Modelled from the spec: "Free-text search matches user_id or text
(case-insensitive substring)" — the predicate the `search` parameter is
supposed to apply; no `SearchFilter` backend or `search_fields` exists in
the source, so the deployed code never applies it. -/
def specSearchMatches (q : String) (r : Knowledge) : Bool :=
  icontains r.user_id q || icontains r.text q

/-- C4 (evaluation at the failing input): with the unit tests' two rows,
`GET /knowledge/?search=Python` returns BOTH rows — the `search` parameter
is ignored because no search backend is configured — although only row 1
matches the spec's search predicate. -/
theorem search_param_ignored :
    (listKnowledge [c4row1, c4row2] { search := some "Python" }).map
        (fun r => r.results.map (fun k => k.id)) = some [2, 1] ∧
    specSearchMatches "Python" c4row2 = false ∧
    ([c4row1, c4row2].filter (specSearchMatches "Python")).map (fun k => k.id) = [1] :=
  ⟨rfl, rfl, rfl⟩

/-- A store of three active rows, for the pagination evaluation. -/
def c8store : Store :=
  [kActive, { kActive with id := 7, created_at := 10 },
   { kActive with id := 8, created_at := 20 }]

/-- C8 (evaluation at the failing input): with three active rows and a
requested `page_size=1`, the list response still carries all three results
— the per-request `page_size` is ignored because the stock
`PageNumberPagination` has `page_size_query_param = None` (the
`PAGE_SIZE_QUERY_PARAM`/`MAX_PAGE_SIZE` keys in `REST_FRAMEWORK` are not
DRF settings) — while the spec-modelled configuration would honour it and
cap it at 100. The `{count, next, previous, results}` shape and the default
size of 20 do hold. -/
theorem page_size_param_ignored :
    (listKnowledge c8store { page_size := some 1 }).map
        (fun r => (r.count, r.next, r.previous, r.results.length)) =
      some (3, none, none, 3) ∧
    deployedPageSize (some 1) = 20 ∧
    deployedPageSize none = 20 ∧
    specPageSize (some 1) = 1 ∧
    specPageSize (some 500) = 100 :=
  ⟨rfl, rfl, rfl, rfl, rfl⟩

end KB
